import Mathlib

/-!
Verification of the enzyme-reactor simulator core (mock data generator,
reactor context tick loop, alert derivation and prediction engine).

Numbers in the source are JavaScript IEEE doubles.  Where a claim hinges on
NaN / Infinity propagation (dashboard aggregates over zero reactors, the
Box-Muller transform at a zero uniform draw, the deactivation forecast at
non-positive activity) we embed values in `JSNum`, an extended-real carrier
with an explicit NaN, and give each JS operation its JS semantics.  Where a
claim is about exact arithmetic structure (kinetics formula, clamps, the
sliding-window history, parameter routing) we embed values as real numbers.
-/

namespace Anzen

/-- The linear congruential step of `SeededRandom`:
`seed = (seed * 9301 + 49297) % 233280`. -/
def lcg (s : ℕ) : ℕ := (s * 9301 + 49297) % 233280

/-- JavaScript number values, as far as this code base distinguishes them:
a finite real, the two infinities, or NaN.  (Signed zero is collapsed to the
single real 0; none of the claims depends on the sign of a zero.) -/
inductive JSNum where
  | num (x : ℝ)
  | posInf
  | negInf
  | nan

namespace JSNum

/-- `Number.isFinite`. -/
def isFinite : JSNum → Bool
  | .num _ => true
  | _ => false

/-- JS addition. -/
noncomputable def jsAdd : JSNum → JSNum → JSNum
  | .num x, .num y => .num (x + y)
  | .num _, .posInf => .posInf
  | .num _, .negInf => .negInf
  | .posInf, .num _ => .posInf
  | .negInf, .num _ => .negInf
  | .posInf, .posInf => .posInf
  | .negInf, .negInf => .negInf
  | _, _ => .nan

/-- JS multiplication (`0 * ±Infinity = NaN`). -/
noncomputable def jsMul : JSNum → JSNum → JSNum
  | .num x, .num y => .num (x * y)
  | .num x, .posInf => if 0 < x then .posInf else if x < 0 then .negInf else .nan
  | .num x, .negInf => if 0 < x then .negInf else if x < 0 then .posInf else .nan
  | .posInf, .num y => if 0 < y then .posInf else if y < 0 then .negInf else .nan
  | .negInf, .num y => if 0 < y then .negInf else if y < 0 then .posInf else .nan
  | .posInf, .posInf => .posInf
  | .negInf, .negInf => .posInf
  | .posInf, .negInf => .negInf
  | .negInf, .posInf => .negInf
  | _, _ => .nan

/-- JS division (`0/0 = NaN`, `x/0 = ±Infinity` for finite `x ≠ 0`,
`±Infinity / finite` keeps or flips the sign). -/
noncomputable def jsDiv : JSNum → JSNum → JSNum
  | .num x, .num y =>
      if y = 0 then (if x = 0 then .nan else if 0 < x then .posInf else .negInf)
      else .num (x / y)
  | .posInf, .num y => if y < 0 then .negInf else .posInf
  | .negInf, .num y => if y < 0 then .posInf else .negInf
  | .num _, .posInf => .num 0
  | .num _, .negInf => .num 0
  | _, _ => .nan

/-- `Math.log` (`log 0 = -Infinity`, `log x = NaN` for `x < 0`). -/
noncomputable def jsLog : JSNum → JSNum
  | .num x => if x < 0 then .nan else if x = 0 then .negInf else .num (Real.log x)
  | .posInf => .posInf
  | _ => .nan

/-- `Math.sqrt` (`sqrt x = NaN` for `x < 0`). -/
noncomputable def jsSqrt : JSNum → JSNum
  | .num x => if x < 0 then .nan else .num (Real.sqrt x)
  | .posInf => .posInf
  | _ => .nan

/-- `Math.cos` (NaN on infinities). -/
noncomputable def jsCos : JSNum → JSNum
  | .num x => .num (Real.cos x)
  | _ => .nan

/-- `Math.max` of two arguments (NaN-absorbing). -/
noncomputable def jsMax : JSNum → JSNum → JSNum
  | .nan, _ => .nan
  | _, .nan => .nan
  | .posInf, _ => .posInf
  | _, .posInf => .posInf
  | .negInf, y => y
  | x, .negInf => x
  | .num x, .num y => .num (max x y)

end JSNum

open JSNum

/-- `SeededRandom.next()`: advances the seed by `lcg` and returns
`seed / 233280` together with the new seed. -/
noncomputable def SeededRandom.next (s : ℕ) : ℝ × ℕ :=
  ((lcg s : ℝ) / 233280, lcg s)

/-- `SeededRandom.range(min, max) = min + next() * (max - min)`. -/
noncomputable def SeededRandom.range (s : ℕ) (lo hi : ℝ) : ℝ × ℕ :=
  let (u, s1) := SeededRandom.next s
  (lo + u * (hi - lo), s1)

/-- `SeededRandom.gaussian(mean, stdDev)`: Box-Muller transform from two
uniform draws, in JS-number semantics (this is where `Math.log(0)` escapes
to `-Infinity` when a uniform draw is exactly 0). -/
noncomputable def SeededRandom.gaussian (s : ℕ) (mean stdDev : ℝ) : JSNum × ℕ :=
  let (u1, s1) := SeededRandom.next s
  let (u2, s2) := SeededRandom.next s1
  let z0 := jsMul (jsSqrt (jsMul (.num (-2)) (jsLog (.num u1)))) (jsCos (.num (2 * Real.pi * u2)))
  (jsAdd (.num mean) (jsMul z0 (.num stdDev)), s2)

/-- `SeededRandom.gaussian` in ideal real arithmetic — the semantics of the
same source line on draws where every intermediate value is finite; used by
the trajectory-level claims, which quantify over the produced draws. -/
noncomputable def gaussianR (s : ℕ) (mean stdDev : ℝ) : ℝ × ℕ :=
  let (u1, s1) := SeededRandom.next s
  let (u2, s2) := SeededRandom.next s1
  (mean + Real.sqrt (-2 * Real.log u1) * Real.cos (2 * Real.pi * u2) * stdDev, s2)

/-- `ReactorConfig` (types/reactor). -/
structure ReactorConfig where
  targetTemperature : ℝ
  targetPH : ℝ
  targetPressure : ℝ
  targetFlowRate : ℝ
  minEnzymeActivity : ℝ
  maxSubstrateConcentration : ℝ
  operatingMode : String
  autoOptimize : Bool

/-- `ReactorMetrics` (types/reactor); the `timestamp : Date` field is
modelled as a real-valued clock reading. -/
structure ReactorMetrics where
  temperature : ℝ
  pH : ℝ
  pressure : ℝ
  flowRate : ℝ
  enzymeActivity : ℝ
  substrateConcentration : ℝ
  productYield : ℝ
  dissolvedOxygen : ℝ
  timestamp : ℝ

/-- `EnzymeKineticsModel.calculateActivity(hours, temperature, pH)`.
`initialActivity` is the model's state field (95 at construction; `reset`,
which would redraw it in [92,98], is never called in the repository), and
`noise` is the value returned by the model's `random.gaussian(0, 0.5)` call. -/
noncomputable def calculateActivity (initialActivity hours temperature pH noise : ℝ) : ℝ :=
  let tempFactor := if temperature > 37 then 1 + (temperature - 37) * 0.05 else 1
  let pHDeviation := |pH - 7.4|
  let pHFactor := 1 + pHDeviation * 0.1
  let effectiveRate := 0.002 * tempFactor * pHFactor
  let activity := initialActivity * Real.exp (-effectiveRate * hours)
  max 0 (activity + noise)

/-- The mutable state of a `ReactorSimulator` apart from its random source:
current metrics, config, the kinetics model's `initialActivity`, and the
running-time accumulator in hours. -/
structure SimState where
  metrics : ReactorMetrics
  config : ReactorConfig
  initialActivity : ℝ
  runningTime : ℝ

/-- The eight values returned by the simulator's `random.gaussian` calls
during one `update()`, in source call order. -/
structure TickDraws where
  dTemp : ℝ
  dPH : ℝ
  dPressure : ℝ
  dFlow : ℝ
  dActivity : ℝ
  dSubstrate : ℝ
  dYield : ℝ
  dOxygen : ℝ

/-- `ReactorSimulator.update()`, with the clock (`new Date()`) passed as
`now` and the gaussian draws passed explicitly.  Field update order follows
the source: pressure reads the pre-update flow rate; enzyme activity reads
the post-update temperature, pH and running time; substrate and yield read
post-update activity and flow. -/
noncomputable def update (now : ℝ) (st : SimState) (d : TickDraws) : SimState :=
  let runningTime := st.runningTime + 1 / 3600
  let m := st.metrics
  let temperature := m.temperature + (st.config.targetTemperature - m.temperature) * 0.02 + d.dTemp
  let pH := m.pH + (st.config.targetPH - m.pH) * 0.01 + d.dPH
  let pressure := m.pressure + ((1.0 + (m.flowRate / 200) * 0.4) - m.pressure) * 0.05 + d.dPressure
  let flowRate := max 0 (m.flowRate + d.dFlow)
  let enzymeActivity := calculateActivity st.initialActivity runningTime temperature pH d.dActivity
  let consumptionRate := 0.5 * (enzymeActivity / 100) * (flowRate / 150)
  let substrateConcentration :=
    max 5 (m.substrateConcentration - consumptionRate * 0.001 + d.dSubstrate)
  let theoreticalYield := (enzymeActivity / 100) * (substrateConcentration / 15) * 90
  let productYield :=
    max 0 (min 100 (m.productYield + (theoreticalYield - m.productYield) * 0.05 + d.dYield))
  let dissolvedOxygen := max 70 (min 100 (m.dissolvedOxygen + d.dOxygen))
  { st with
    runningTime := runningTime
    metrics :=
      { temperature := temperature
        pH := pH
        pressure := pressure
        flowRate := flowRate
        enzymeActivity := enzymeActivity
        substrateConcentration := substrateConcentration
        productYield := productYield
        dissolvedOxygen := dissolvedOxygen
        timestamp := now } }

/-- Draw the eight per-tick gaussians from the random source, in the order
`update()` calls them (σ = 0.05, 0.02, 0.01, 2, 0.5, 0.1, 0.5, 1). -/
noncomputable def drawTick (s : ℕ) : TickDraws × ℕ :=
  let (g1, s1) := gaussianR s 0 0.05
  let (g2, s2) := gaussianR s1 0 0.02
  let (g3, s3) := gaussianR s2 0 0.01
  let (g4, s4) := gaussianR s3 0 2
  let (g5, s5) := gaussianR s4 0 0.5
  let (g6, s6) := gaussianR s5 0 0.1
  let (g7, s7) := gaussianR s6 0 0.5
  let (g8, s8) := gaussianR s7 0 1
  (⟨g1, g2, g3, g4, g5, g6, g7, g8⟩, s8)

/-- A `ReactorSimulator` together with its random source's seed state. -/
structure RSState where
  sim : SimState
  rng : ℕ

/-- One closed-loop `update()`: draw the tick's gaussians from the owned
random source, then apply `update`. -/
noncomputable def updateRS (now : ℝ) (st : RSState) : RSState :=
  let (d, rng1) := drawTick st.rng
  { sim := update now st.sim d, rng := rng1 }

/-- The `ReactorSimulator` constructor for a given seed, with `Date.now()`
passed as `now`.  Draw order follows the source: the start-time offset
`range(2, 48)` (which is exactly the initial running time in hours), then
the gaussians for temperature, pH, pressure and flow, the kinetics noise
inside `calculateActivity`, and the ranges for substrate, yield and
dissolved oxygen. -/
noncomputable def construct (seed : ℕ) (now : ℝ) : RSState :=
  let (r1, s1) := SeededRandom.range seed 2 48
  let runningTime := r1
  let config : ReactorConfig := ⟨35, 7.4, 1.2, 150, 70, 20, "continuous", true⟩
  let (gT, s2) := gaussianR s1 0 0.3
  let (gP, s3) := gaussianR s2 0 0.1
  let (gPr, s4) := gaussianR s3 0 0.05
  let (gF, s5) := gaussianR s4 0 5
  let (gA, s6) := gaussianR s5 0 0.5
  let enzymeActivity :=
    calculateActivity 95 runningTime config.targetTemperature config.targetPH gA
  let (rS, s7) := SeededRandom.range s6 10 15
  let (rY, s8) := SeededRandom.range s7 75 85
  let (rO, s9) := SeededRandom.range s8 85 95
  { sim :=
      { metrics :=
          ⟨35 + gT, 7.4 + gP, 1.2 + gPr, 150 + gF, enzymeActivity, rS, rY, rO, now⟩
        config := config
        initialActivity := 95
        runningTime := runningTime }
    rng := s9 }

/-- The simulator state after `n` ticks from construction, the external
clock held fixed at `now`. -/
noncomputable def trajectory (seed : ℕ) (now : ℝ) : ℕ → RSState
  | 0 => construct seed now
  | n + 1 => updateRS now (trajectory seed now n)

/-- The metrics snapshot after `n` ticks. -/
noncomputable def metricsTrajectory (seed : ℕ) (now : ℝ) (n : ℕ) : ReactorMetrics :=
  (trajectory seed now n).sim.metrics

/-- One call against a `SeededRandom` instance. -/
inductive RandCall where
  | nextCall
  | rangeCall (lo hi : ℝ)
  | gaussCall (mean stdDev : ℝ)

/-- Run one call against the random source. -/
noncomputable def runCall (s : ℕ) : RandCall → JSNum × ℕ
  | .nextCall => let (u, s1) := SeededRandom.next s; (.num u, s1)
  | .rangeCall lo hi => let (v, s1) := SeededRandom.range s lo hi; (.num v, s1)
  | .gaussCall mean stdDev => SeededRandom.gaussian s mean stdDev

/-- Run a call sequence against the random source, collecting the values. -/
noncomputable def runCalls : List RandCall → ℕ → List JSNum × ℕ
  | [], s => ([], s)
  | c :: cs, s =>
      let (v, s1) := runCall s c
      let (vs, s2) := runCalls cs s1
      (v :: vs, s2)

/-- `l.slice(-n)` for a JS array: the last `n` elements (all of them when
the array is shorter). -/
def lastN (n : ℕ) (l : List α) : List α := l.drop (l.length - n)

/-- The provider tick's history update:
`updated.history = [...reactor.history.slice(-287), newHistoryPoint]`. -/
def historyAppend (history : List α) (pt : α) : List α := lastN 287 history ++ [pt]

/-- The history after a sequence of ticks, each appending its snapshot. -/
def historyAfter (init : List α) (pts : List α) : List α := pts.foldl historyAppend init

/-- The deactivation forecast shared by `generateAIPredictions` and the
provider tick, in JS-number semantics:
`Math.max(0, Math.log(currentActivity / 70) / 0.002)`. -/
noncomputable def hoursRemaining (currentActivity : ℝ) : JSNum :=
  jsMax (.num 0) (jsDiv (jsLog (jsDiv (.num currentActivity) (.num 70))) (.num 0.002))

/-- Alert type. -/
inductive AlertType where
  | info
  | warning
  | critical
  | success
deriving DecidableEq

/-- The logically relevant fields of an `Alert`; `id`, `message` and
`timestamp` (string formatting and `Date.now()`/`Math.random()` jitter)
carry no alert logic and are omitted. -/
structure AlertInfo where
  type : AlertType
  parameter : String
  value : ℝ
  resolved : Bool

/-- `generateAlerts(reactorId, metrics, history)`: the four threshold rules
in source order, then `slice(0, 5)`. -/
noncomputable def generateAlerts (m : ReactorMetrics) (history : List ReactorMetrics) :
    List AlertInfo :=
  let pHAlerts :=
    if |m.pH - 7.4| > 0.3 then
      [⟨if |m.pH - 7.4| > 0.5 then .critical else .warning, "pH", m.pH, false⟩]
    else []
  let enzymeAlerts :=
    if m.enzymeActivity < 75 then
      [⟨if m.enzymeActivity < 70 then .critical else .warning, "enzymeActivity",
        m.enzymeActivity, false⟩]
    else []
  let tempAlerts :=
    if 10 ≤ history.length then
      let recentTemps := (lastN 10 history).map (fun d => d.temperature)
      let tempVariance :=
        (recentTemps.foldl (fun sum t => sum + (t - m.temperature) ^ 2) 0) / 10
      if tempVariance > 0.5 then [⟨.info, "temperature", m.temperature, true⟩] else []
    else []
  let successAlerts :=
    if m.productYield > 82 then [⟨.success, "productYield", m.productYield, true⟩] else []
  (pHAlerts ++ enzymeAlerts ++ tempAlerts ++ successAlerts).take 5

/-- `ReactorSimulator.adjustParameter(param, value)`: three independent
string comparisons, each guarding one assignment. -/
def adjustParameter (param : String) (value : ℝ) (st : SimState) : SimState :=
  let st1 :=
    if param = "temperature" then
      { st with config := { st.config with targetTemperature := value } }
    else st
  let st2 :=
    if param = "pH" then
      { st1 with config := { st1.config with targetPH := value } }
    else st1
  let st3 :=
    if param = "flowRate" then
      { st2 with metrics := { st2.metrics with flowRate := value } }
    else st2
  st3

/-- One entry of `recommendedChanges`; the `impact` string (a `toFixed`
rendering of the contribution to `potentialGain`) is omitted. -/
structure ParameterAdjustment where
  parameter : String
  currentValue : ℝ
  suggestedValue : ℝ
  priority : String

/-- The `recommendations` list built by `generateAIPredictions`: up to three
conditional pushes, in source order, against the fixed optimal setpoints
(temperature 35.8, pH 7.35, flow 165). -/
noncomputable def recommendedChanges (m : ReactorMetrics) : List ParameterAdjustment :=
  let tempDelta := |m.temperature - 35.8|
  let pHDelta := |m.pH - 7.35|
  let flowDelta := |m.flowRate - 165|
  (if tempDelta > 0.5 then
      [⟨"temperature", m.temperature, 35.8, if tempDelta > 1 then ("high") else ("medium")⟩]
    else []) ++
  (if pHDelta > 0.1 then
      [⟨"pH", m.pH, 7.35, if pHDelta > 0.3 then ("high") else ("medium")⟩]
    else []) ++
  (if flowDelta > 10 then [⟨"flowRate", m.flowRate, 165, "low"⟩] else [])

/-- Reactor status. -/
inductive ReactorStatus where
  | running
  | idle
  | maintenance
  | error
  | optimizing
deriving DecidableEq

/-- The fields of a `Reactor` read by `generateDashboardStats`. -/
structure Reactor where
  status : ReactorStatus
  currentMetrics : ReactorMetrics
  alerts : List AlertInfo

/-- `DashboardStats`.  The count fields are integer-valued in every JS
execution and are modelled as naturals; the fields computed through
division or scaling are `JSNum` so that division by a zero reactor count is
represented faithfully. -/
structure DashboardStats where
  totalReactors : ℕ
  activeReactors : ℕ
  averageYield : JSNum
  totalAlerts : ℕ
  criticalAlerts : ℕ
  systemHealth : JSNum
  dailyProduction : ℝ
  uptime : JSNum

/-- `generateDashboardStats(reactors)`: the aggregate statistics, with each
`reduce(...) / reactors.length` expressed through JS division. -/
noncomputable def generateDashboardStats (reactors : List Reactor) : DashboardStats :=
  let activeReactors :=
    (reactors.filter (fun r =>
      r.status == ReactorStatus.running || r.status == ReactorStatus.optimizing)).length
  let averageYield :=
    jsDiv (.num (reactors.foldl (fun sum r => sum + r.currentMetrics.productYield) 0))
      (.num (reactors.length : ℝ))
  let totalAlerts := reactors.foldl (fun sum r => sum + r.alerts.length) 0
  let criticalAlerts :=
    reactors.foldl
      (fun sum r =>
        sum + (r.alerts.filter (fun a => a.type == AlertType.critical && !a.resolved)).length)
      0
  let avgEnzymeActivity :=
    jsDiv (.num (reactors.foldl (fun sum r => sum + r.currentMetrics.enzymeActivity) 0))
      (.num (reactors.length : ℝ))
  { totalReactors := reactors.length
    activeReactors := activeReactors
    averageYield := averageYield
    totalAlerts := totalAlerts
    criticalAlerts := criticalAlerts
    systemHealth := avgEnzymeActivity
    dailyProduction :=
      reactors.foldl
        (fun sum r =>
          sum + (if r.status == ReactorStatus.running then r.currentMetrics.productYield * 0.5 else 0))
        0
    uptime := jsMul (jsDiv (.num (activeReactors : ℝ)) (.num (reactors.length : ℝ))) (.num 100) }

/-- A seed whose very next LCG step is exactly 0
(`22643 * 9301 + 49297 = 903 * 233280`), so `next()` returns 0. -/
def nanSeed : ℕ := 22643

/-- The per-tick metric bounds asserted by the spec for the simulator's
clamp ranges (dissolved oxygen in the `ReactorSimulator` variant's
[70,100]). -/
def metricsBounds (m : ReactorMetrics) : Prop :=
  0 ≤ m.enzymeActivity ∧ m.enzymeActivity ≤ 100 ∧
  0 ≤ m.productYield ∧ m.productYield ≤ 100 ∧
  70 ≤ m.dissolvedOxygen ∧ m.dissolvedOxygen ≤ 100 ∧
  0 ≤ m.flowRate ∧ 5 ≤ m.substrateConcentration

/-- A concrete in-bounds simulator state, sitting at the configured
targets. -/
def cexState : SimState :=
  { metrics := ⟨35, 7.4, 1.2, 150, 95, 10, 80, 85, 0⟩
    config := ⟨35, 7.4, 1.2, 150, 70, 20, "continuous", true⟩
    initialActivity := 95
    runningTime := 0 }

/-- Draw values for one tick: zero noise everywhere except a +50 kinetics
noise draw. -/
def cexDraws : TickDraws := ⟨0, 0, 0, 0, 50, 0, 0, 0⟩

/-- A concrete metrics snapshot whose pH has been forced to 8.0. -/
def metricsPH8 : ReactorMetrics := ⟨35, 8, 1.2, 150, 90, 10, 80, 85, 0⟩

/-- A concrete simulator state for exercising `adjustParameter`. -/
def adjState : SimState :=
  { metrics := ⟨36, 7.3, 1.1, 140, 90, 12, 78, 88, 0⟩
    config := ⟨35, 7.4, 1.2, 150, 70, 20, "continuous", true⟩
    initialActivity := 95
    runningTime := 10 }

/-! ## Theorems -/

/-- C1: on an empty reactor list the aggregate statistics do NOT all equal
0 — `averageYield`, `systemHealth` and `uptime` are each `0/0`, which JS
evaluates to NaN (the claim's guard does not exist in the code); only the
count fields and `dailyProduction` are 0. -/
theorem dashboardStats_empty_nan :
    (generateDashboardStats []).averageYield = JSNum.nan ∧
    (generateDashboardStats []).systemHealth = JSNum.nan ∧
    (generateDashboardStats []).uptime = JSNum.nan ∧
    JSNum.nan ≠ JSNum.num 0 ∧
    (generateDashboardStats []).totalReactors = 0 ∧
    (generateDashboardStats []).activeReactors = 0 ∧
    (generateDashboardStats []).totalAlerts = 0 ∧
    (generateDashboardStats []).criticalAlerts = 0 ∧
    (generateDashboardStats []).dailyProduction = 0 := by
  unfold generateDashboardStats
  refine ⟨?_, ?_, ?_, fun h => JSNum.noConfusion h, rfl, rfl, rfl, rfl, rfl⟩ <;>
    simp [jsDiv, jsMul]

/-- C3: the random source and the simulator are deterministic in the seed:
with equal seeds, an identical call sequence yields identical values and
final seed states, and identical tick counts (the external clock held
fixed) yield identical metrics trajectories. -/
theorem seeded_determinism (s1 s2 : ℕ) (h : s1 = s2) (calls : List RandCall)
    (now : ℝ) (n : ℕ) :
    runCalls calls s1 = runCalls calls s2 ∧
    metricsTrajectory s1 now n = metricsTrajectory s2 now n := by
  subst h; exact ⟨rfl, rfl⟩

/-- C3 witness: instantiated at seed 12345 on both sides. -/
theorem seeded_determinism_witness :
    runCalls [RandCall.nextCall] 12345 = runCalls [RandCall.nextCall] 12345 ∧
    metricsTrajectory 12345 0 3 = metricsTrajectory 12345 0 3 :=
  seeded_determinism 12345 12345 rfl [RandCall.nextCall] 0 3

/-- C4: `calculateActivity` computes
`max 0 (initialActivity * exp(-(0.002 * tempFactor * pHFactor) * hours) + noise)`
with `tempFactor = 1 + max 0 (temperature - 37) * 0.05` (the source's
ternary agrees with the spec's `max` form) and
`pHFactor = 1 + |pH - 7.4| * 0.1`. -/
theorem calculateActivity_spec (initialActivity hours temperature pH noise : ℝ) :
    calculateActivity initialActivity hours temperature pH noise =
      max 0 (initialActivity *
        Real.exp (-(0.002 * (1 + max 0 (temperature - 37) * 0.05) *
          (1 + |pH - 7.4| * 0.1)) * hours) + noise) := by
  have htf : (if temperature > 37 then 1 + (temperature - 37) * 0.05 else 1) =
      1 + max 0 (temperature - 37) * 0.05 := by
    rcases le_or_lt temperature 37 with h | h
    · rw [if_neg (not_lt.mpr h), max_eq_left (by linarith)]
      ring
    · rw [if_pos h, max_eq_right (by linarith)]
  unfold calculateActivity
  rw [htf]

/-- C2: the claim fails on the code.  At seed 22643 the uniform draw
`next()` is exactly 0 and no guard exists: Box-Muller takes `Math.log(0)
= -Infinity`, so `gaussian(0, 0.5)` returns `+Infinity` (not a finite
number), and `gaussian(0, 0)` returns NaN (`Infinity * 0`). -/
theorem gaussian_not_finite_at_nanSeed :
    (SeededRandom.next nanSeed).1 = 0 ∧
    (SeededRandom.gaussian nanSeed 0 0.5).1 = JSNum.posInf ∧
    (SeededRandom.gaussian nanSeed 0 0.5).1.isFinite = false ∧
    (SeededRandom.gaussian nanSeed 0 0).1 = JSNum.nan := by
  have h1 : lcg nanSeed = 0 := by decide
  have h2 : lcg 0 = 49297 := by decide
  have hcos : 0 < Real.cos (2 * Real.pi * ((49297 : ℝ) / 233280)) := by
    have hpi := Real.pi_pos
    apply Real.cos_pos_of_mem_Ioo
    constructor
    · nlinarith
    · nlinarith
  have hz : (SeededRandom.gaussian nanSeed 0 0.5).1 = JSNum.posInf := by
    simp only [SeededRandom.gaussian, SeededRandom.next, h1, h2]
    norm_num [jsLog, jsMul, jsSqrt, jsCos, jsAdd, hcos]
  refine ⟨?_, hz, by rw [hz]; rfl, ?_⟩
  · simp [SeededRandom.next, h1]
  · simp only [SeededRandom.gaussian, SeededRandom.next, h1, h2]
    norm_num [jsLog, jsMul, jsSqrt, jsCos, jsAdd, hcos]

/-- C7 counterexample: at currentActivity = -70 the forecast is NaN, not 0:
`Math.log(-1)` is NaN and JS `Math.max(0, NaN)` is NaN, so the claimed
"currentActivity ≤ 0 gives 0" fails below 0 (there is no guard in the
code). -/
theorem hoursRemaining_neg_nan :
    hoursRemaining (-70) = JSNum.nan ∧ JSNum.nan ≠ JSNum.num 0 := by
  refine ⟨?_, fun h => JSNum.noConfusion h⟩
  norm_num [hoursRemaining, jsDiv, jsLog, jsMax]

/-- C7 amended: for every currentActivity ≥ 0 (which is every value the
program can pass, since the metric is clamped below at 0), the forecast is
the finite number `max 0 (ln(currentActivity/70) / 0.002)`, is 0 whenever
currentActivity ≤ 70 (including 0, where JS evaluates `max(0, -Infinity)`
to 0), and is never negative. -/
theorem hoursRemaining_spec (a : ℝ) (ha : 0 ≤ a) :
    hoursRemaining a = JSNum.num (max 0 (Real.log (a / 70) / 0.002)) ∧
    (a ≤ 70 → hoursRemaining a = JSNum.num 0) ∧
    0 ≤ max 0 (Real.log (a / 70) / 0.002) := by
  rcases eq_or_lt_of_le ha with h0 | h0
  · subst h0
    norm_num [hoursRemaining, jsDiv, jsLog, jsMax, Real.log_zero]
  · have h70 : (0 : ℝ) < a / 70 := by positivity
    have heq : hoursRemaining a = JSNum.num (max 0 (Real.log (a / 70) / 0.002)) := by
      rw [hoursRemaining]
      rw [show jsDiv (.num a) (.num 70) = .num (a / 70) by norm_num [jsDiv]]
      rw [show jsLog (.num (a / 70)) = .num (Real.log (a / 70)) by
        simp [jsLog, not_lt.mpr h70.le, ne_of_gt h70]]
      norm_num [jsDiv, jsMax]
    refine ⟨heq, ?_, le_max_left _ _⟩
    intro hle
    have hlog : Real.log (a / 70) ≤ 0 :=
      Real.log_nonpos h70.le (by rw [div_le_one (by norm_num)]; linarith)
    rw [heq, max_eq_left (div_nonpos_iff.mpr (Or.inr ⟨hlog, by norm_num⟩))]

/-- C7 amended witness: instantiated at currentActivity = 140. -/
theorem hoursRemaining_spec_witness :
    (0 : ℝ) ≤ 140 ∧
    hoursRemaining 140 = JSNum.num (max 0 (Real.log ((140 : ℝ) / 70) / 0.002)) :=
  ⟨by norm_num, (hoursRemaining_spec 140 (by norm_num)).1⟩

/-- C5 amended: after every tick from any in-bounds state, for every
sequence of random draws, the update's clamps give enzymeActivity ≥ 0,
productYield ∈ [0,100], dissolvedOxygen ∈ [70,100] and flowRate ≥ 0 and
substrateConcentration ≥ 5; the claimed upper bound enzymeActivity ≤ 100
is not among them (see the counterexample: the update applies no upper
clamp to enzymeActivity). -/
theorem update_bounds (now : ℝ) (st : SimState) (d : TickDraws)
    (_h : metricsBounds st.metrics) :
    0 ≤ (update now st d).metrics.enzymeActivity ∧
    0 ≤ (update now st d).metrics.productYield ∧
    (update now st d).metrics.productYield ≤ 100 ∧
    70 ≤ (update now st d).metrics.dissolvedOxygen ∧
    (update now st d).metrics.dissolvedOxygen ≤ 100 ∧
    0 ≤ (update now st d).metrics.flowRate ∧
    5 ≤ (update now st d).metrics.substrateConcentration := by
  unfold update calculateActivity
  exact ⟨le_max_left _ _, le_max_left _ _, max_le (by norm_num) (min_le_left _ _),
    le_max_left _ _, max_le (by norm_num) (min_le_left _ _), le_max_left _ _,
    le_max_left _ _⟩

/-- C5 amended witness: one tick from the concrete in-bounds state. -/
theorem update_bounds_witness :
    metricsBounds cexState.metrics ∧
    0 ≤ (update 0 cexState cexDraws).metrics.enzymeActivity ∧
    0 ≤ (update 0 cexState cexDraws).metrics.productYield ∧
    (update 0 cexState cexDraws).metrics.productYield ≤ 100 ∧
    70 ≤ (update 0 cexState cexDraws).metrics.dissolvedOxygen ∧
    (update 0 cexState cexDraws).metrics.dissolvedOxygen ≤ 100 ∧
    0 ≤ (update 0 cexState cexDraws).metrics.flowRate ∧
    5 ≤ (update 0 cexState cexDraws).metrics.substrateConcentration := by
  have hb : metricsBounds cexState.metrics := by norm_num [metricsBounds, cexState]
  exact ⟨hb, update_bounds 0 cexState cexDraws hb⟩

/-- C5 counterexample: from an in-bounds state at the configured targets,
one tick with a +50 kinetics noise draw puts enzymeActivity above 100 —
the update clamps it below at 0 but never above at 100, so the claimed
invariant enzymeActivity ∈ [0,100] fails for some draw sequence. -/
theorem update_activity_exceeds_100 :
    metricsBounds cexState.metrics ∧
    100 < (update 0 cexState cexDraws).metrics.enzymeActivity := by
  constructor
  · norm_num [metricsBounds, cexState]
  · have hexp : (1 : ℝ) - 1 / 1800000 ≤ Real.exp (-(1 / 1800000)) := by
      have h := Real.add_one_le_exp (-(1 / 1800000 : ℝ))
      linarith
    unfold update calculateActivity
    norm_num [cexState, cexDraws]
    nlinarith [hexp, Real.exp_pos (-(1 / 1800000 : ℝ))]

/-- Appending then keeping the last 287 is keeping the last 288 of the
appended list. -/
theorem historyAppend_eq (history : List α) (pt : α) :
    historyAppend history pt = lastN 288 (history ++ [pt]) := by
  unfold historyAppend lastN
  rw [List.length_append, List.length_singleton,
    show history.length + 1 - 288 = history.length - 287 by omega,
    List.drop_append_of_le_length (by omega)]

/-- `lastN n` only reads the last `n` elements: a prefix can be discarded
when the suffix already has at least `n` elements. -/
theorem lastN_append_left (n : ℕ) (t l : List α) (h : n ≤ l.length) :
    lastN n (t ++ l) = lastN n l := by
  unfold lastN
  rw [List.length_append, show t.length + l.length - n = t.length + (l.length - n) by omega,
    List.drop_append]

/-- Chopping to the last `n` before appending more does not change the last
`n` of the whole. -/
theorem lastN_lastN_append (n : ℕ) (l ps : List α) :
    lastN n (lastN n l ++ ps) = lastN n (l ++ ps) := by
  rcases le_or_lt l.length n with h | h
  · have : lastN n l = l := by
      unfold lastN; rw [Nat.sub_eq_zero_of_le h, List.drop_zero]
    rw [this]
  · have hlen : n ≤ (List.drop (l.length - n) l ++ ps).length := by
      rw [List.length_append, List.length_drop]; omega
    conv_rhs => rw [← List.take_append_drop (l.length - n) l, List.append_assoc,
      lastN_append_left n _ _ hlen]
    rfl

/-- After at least one tick, the accumulated history is exactly the last
288 of everything ever present. -/
theorem historyAfter_eq (init : List α) (pts : List α) (h : pts ≠ []) :
    historyAfter init pts = lastN 288 (init ++ pts) := by
  induction pts generalizing init with
  | nil => cases h rfl
  | cons p ps ih =>
    by_cases hps : ps = []
    · subst hps
      exact historyAppend_eq init p
    · have hstep : historyAfter init (p :: ps) = historyAfter (historyAppend init p) ps := by
        simp [historyAfter]
      rw [hstep, ih (historyAppend init p) hps, historyAppend_eq,
        lastN_lastN_append, List.append_assoc, List.singleton_append]

/-- C6: the per-tick history update appends the newest snapshot as the last
element, keeps `min (oldLength + 1) 288` points, and after `N > 288` ticks
the history has exactly 288 points whose oldest (head) is the point
appended at tick `N - 287` (index `N - 288` from zero). -/
theorem history_window (init : List α) (pt : α) (pts : List α)
    (h : 288 < pts.length) :
    (historyAppend init pt).getLast? = some pt ∧
    (historyAppend init pt).length = min (init.length + 1) 288 ∧
    (historyAfter init pts).length = 288 ∧
    (historyAfter init pts).head? = pts[pts.length - 288]? := by
  have hne : pts ≠ [] := by
    intro he; rw [he] at h; simp at h
  refine ⟨List.getLast?_concat _, ?_, ?_, ?_⟩
  · simp only [historyAppend, lastN, List.length_append, List.length_drop,
      List.length_singleton]
    omega
  · rw [historyAfter_eq init pts hne]
    simp only [lastN, List.length_append, List.length_drop]
    omega
  · rw [historyAfter_eq init pts hne]
    unfold lastN
    rw [List.length_append,
      show init.length + pts.length - 288 = init.length + (pts.length - 288) by omega,
      List.drop_append, List.head?_drop]

/-- C6 witness: a 289-tick run from an empty history. -/
theorem history_window_witness :
    288 < (List.replicate 289 0).length ∧
    (historyAppend ([] : List ℕ) 7).getLast? = some 7 ∧
    (historyAppend ([] : List ℕ) 7).length = min ((0 : ℕ) + 1) 288 ∧
    (historyAfter [] (List.replicate 289 0)).length = 288 ∧
    (historyAfter ([] : List ℕ) (List.replicate 289 0)).head? =
      (List.replicate 289 (0 : ℕ))[(List.replicate 289 (0 : ℕ)).length - 288]? := by
  have h : 288 < (List.replicate 289 (0 : ℕ)).length := by
    rw [List.length_replicate]; omega
  have hmain := history_window ([] : List ℕ) 7 (List.replicate 289 0) h
  exact ⟨h, hmain.1, by simpa using hmain.2.1, hmain.2.2.1, hmain.2.2.2⟩

/-- C8: whenever the current snapshot's pH deviates from 7.4 by more than
0.3, the alert derivation emits a pH alert (pushed first, hence inside the
5-entry slice), of type critical exactly when the deviation exceeds 0.5 and
warning otherwise, carrying parameter "pH" and the pH value. -/
theorem pH_alert (m : ReactorMetrics) (history : List ReactorMetrics)
    (h : |m.pH - 7.4| > 0.3) :
    ∃ a ∈ generateAlerts m history, a.parameter = "pH" ∧ a.value = m.pH ∧
      a.type = (if |m.pH - 7.4| > 0.5 then AlertType.critical else AlertType.warning) := by
  refine ⟨⟨if |m.pH - 7.4| > 0.5 then .critical else .warning, "pH", m.pH, false⟩,
    ?_, rfl, rfl, rfl⟩
  simp only [generateAlerts]
  rw [if_pos h]
  simp

/-- C8 witness: a reactor whose pH is forced to 8.0 (deviation 0.6) gets a
critical pH alert in its alert list. -/
theorem pH_alert_witness :
    |metricsPH8.pH - 7.4| > 0.3 ∧
    ∃ a ∈ generateAlerts metricsPH8 [], a.parameter = "pH" ∧ a.value = metricsPH8.pH ∧
      a.type = AlertType.critical := by
  have hdev : |metricsPH8.pH - 7.4| > 0.3 := by norm_num [metricsPH8, lt_abs]
  have hmain := pH_alert metricsPH8 [] hdev
  rw [if_pos (by norm_num [metricsPH8, lt_abs] : |metricsPH8.pH - 7.4| > 0.5)] at hmain
  exact ⟨hdev, hmain⟩

/-- C9: `adjustParameter` routes "temperature" to `config.targetTemperature`
only, "pH" to `config.targetPH` only (metrics untouched in both cases),
writes "flowRate" straight into the flow metric (config untouched), and is
a total no-op on every other name — it is a total function, so no error is
raised. -/
theorem adjustParameter_frame (v : ℝ) (st : SimState) (p : String)
    (hT : p ≠ "temperature") (hP : p ≠ "pH") (hF : p ≠ "flowRate") :
    adjustParameter ("temperature") v st =
      { st with config := { st.config with targetTemperature := v } } ∧
    adjustParameter ("pH") v st =
      { st with config := { st.config with targetPH := v } } ∧
    adjustParameter ("flowRate") v st =
      { st with metrics := { st.metrics with flowRate := v } } ∧
    adjustParameter p v st = st := by
  refine ⟨?_, ?_, ?_, ?_⟩
  · have e1 : ("temperature" : String) ≠ "pH" := by decide
    have e2 : ("temperature" : String) ≠ "flowRate" := by decide
    simp [adjustParameter, e1, e2]
  · have e1 : ("pH" : String) ≠ "temperature" := by decide
    have e2 : ("pH" : String) ≠ "flowRate" := by decide
    simp [adjustParameter, e1, e2]
  · have e1 : ("flowRate" : String) ≠ "temperature" := by decide
    have e2 : ("flowRate" : String) ≠ "pH" := by decide
    simp [adjustParameter, e1, e2]
  · simp [adjustParameter, hT, hP, hF]

/-- C9 witness: instantiated with the unknown parameter name "pressure" on
a concrete state. -/
theorem adjustParameter_frame_witness :
    ("pressure" ≠ "temperature" ∧ "pressure" ≠ "pH" ∧ "pressure" ≠ "flowRate") ∧
    adjustParameter ("temperature") 40 adjState =
      { adjState with config := { adjState.config with targetTemperature := 40 } } ∧
    adjustParameter ("pH") 40 adjState =
      { adjState with config := { adjState.config with targetPH := 40 } } ∧
    adjustParameter ("flowRate") 40 adjState =
      { adjState with metrics := { adjState.metrics with flowRate := 40 } } ∧
    adjustParameter ("pressure") 40 adjState = adjState :=
  ⟨⟨by decide, by decide, by decide⟩,
    adjustParameter_frame 40 adjState ("pressure") (by decide) (by decide) (by decide)⟩

/-- C10: the recommendation list's parameters form a sublist of the fixed
order [temperature, pH, flowRate] (hence at most one entry per parameter,
in that order), its length is at most 3, and each parameter is present
exactly when its absolute delta from the optimal setpoint exceeds its
threshold (0.5, 0.1, 10 respectively). -/
theorem recommendedChanges_spec (m : ReactorMetrics) :
    ((recommendedChanges m).map (fun r => r.parameter)).Sublist
      ["temperature", "pH", "flowRate"] ∧
    (recommendedChanges m).length ≤ 3 ∧
    ((recommendedChanges m).map (fun r => r.parameter)).Nodup ∧
    ("temperature" ∈ (recommendedChanges m).map (fun r => r.parameter) ↔
      |m.temperature - 35.8| > 0.5) ∧
    ("pH" ∈ (recommendedChanges m).map (fun r => r.parameter) ↔
      |m.pH - 7.35| > 0.1) ∧
    ("flowRate" ∈ (recommendedChanges m).map (fun r => r.parameter) ↔
      |m.flowRate - 165| > 10) := by
  unfold recommendedChanges
  by_cases h1 : |m.temperature - 35.8| > 0.5 <;>
    by_cases h2 : |m.pH - 7.35| > 0.1 <;>
      by_cases h3 : |m.flowRate - 165| > 10 <;>
        simp [h1, h2, h3]

end Anzen
